import Mathlib

/-!
Verification development for the audio preview pipeline of this repository.

The pipeline appears twice in the source: a server request handler
(`api` handler, `part_003`) and an operator CLI (`scripts/generate_preview.js`,
`part_010`).  Both are embedded below as pure functions over an explicit
`World` of external outcomes (subprocess spawn results, network results,
the destination object store), producing a result record together with a
trace of externally visible events.  Every definition is translated from
the source files, not from the specification text.
-/

namespace PreviewPipeline

/-- JavaScript values that can appear as a parsed CLI flag value: either a
string (the following argv token) or the literal `true` (flag with no
value).  Mirrors `parseArgs` in the CLI source, where
`out[key] = args[i+1] && !args[i+1].startsWith('--') ? args[++i] : true`. -/
inductive ArgVal where
  | str (s : String)
  | tru
deriving DecidableEq, Repr

/-- JavaScript truthiness of an `ArgVal`: a string is truthy iff non-empty;
the literal `true` is truthy. -/
def truthyA : ArgVal → Bool
  | .str s => s ≠ ""
  | .tru => true

/-- JavaScript truthiness of a possibly-absent string (absent and `""` are
falsy), used for env values and JSON body fields. -/
def truthy : Option String → Bool
  | none => false
  | some s => s ≠ ""

/-- Truthiness of a possibly-absent `ArgVal` (absent is falsy). -/
def truthyV : Option ArgVal → Bool
  | none => false
  | some v => truthyA v

/-- Options object passed to the storage upload call.  The source passes
exactly `{ upsert: true }` in both entry points; `contentType` is the
(absent) content-type option of the storage client's upload API. -/
structure UploadOptions where
  upsert : Bool
  contentType : Option String
deriving DecidableEq, Repr

/-- The options literal `{ upsert: true }` from the two upload call sites. -/
def uploadOpts : UploadOptions := { upsert := true, contentType := none }

/-- Externally visible events of one pipeline invocation, in order. -/
inductive Event where
  /-- spawnSync of the encoder version probe (`ffmpeg -version`). -/
  | probe
  /-- createSignedUrl call against the source store. -/
  | signRequest (bucket key : ArgVal)
  /-- HTTP fetch of the source object over the signed URL. -/
  | fetchSource
  /-- mkdtempSync creation of the scratch workspace. -/
  | mkScratch
  /-- writeFileSync of the fetched bytes into the scratch workspace. -/
  | writeInput
  /-- spawnSync of the encoding subprocess with its argument list. -/
  | transcode (args : List String)
  /-- storage upload call against the destination store. -/
  | upload (bucket key : ArgVal) (opts : UploadOptions)
  /-- rmSync removal attempt of the scratch workspace. -/
  | rmScratch
deriving DecidableEq, Repr

/-- Event discriminator: is this an upload call? -/
def isUpload : Event → Bool
  | .upload _ _ _ => true
  | _ => false

/-- Event discriminator: is this a transcode subprocess spawn? -/
def isTranscode : Event → Bool
  | .transcode _ => true
  | _ => false

/-- Event discriminator: is this a network call to the source store
(signed-URL request or fetch of the source object)? -/
def isSourceStoreCall : Event → Bool
  | .signRequest _ _ => true
  | .fetchSource => true
  | _ => false

/-- Event discriminator: an upload whose options carry the given content
type. -/
def uploadContentTypeIs (ct : String) : Event → Bool
  | .upload _ _ o => o.contentType = some ct
  | _ => false

/-- The destination object store, keyed by bucket and object key
(keys are `ArgVal` because the CLI can pass the literal `true`). -/
abbrev Store := ArgVal → ArgVal → Option String

/-- Semantics of the storage upload call: with `upsert` the object at the
key is created or overwritten; without `upsert` an existing object makes
the upload fail (`none`). -/
def storeUpload (s : Store) (bucket key : ArgVal) (content : String)
    (opts : UploadOptions) : Option Store :=
  if opts.upsert = true ∨ (s bucket key).isNone then
    some (fun b k => if b = bucket ∧ k = key then some content else s b k)
  else
    none

/-- Outcomes of the external world for one invocation: subprocess spawn
results, network results, the fresh scratch directory name, the encoder
output bytes, the rm outcome, the clock, and the destination store. -/
structure World where
  /-- spawnSync error on the version probe (`ffCheck.error`). -/
  probeSpawnError : Bool
  /-- Result of createSignedUrl: the signed URL, absent on error. -/
  signedUrl : Option String
  /-- Whether the fetch of the source object returned a success status. -/
  fetchOk : Bool
  /-- The unique scratch directory name produced by mkdtempSync. -/
  tmpDir : String
  /-- Whether reading the response body (arrayBuffer) throws. -/
  bodyReadThrows : Bool
  /-- spawnSync error on the encoding subprocess (`ff.error`). -/
  ffSpawnError : Bool
  /-- Exit status of the encoding subprocess (`ff.status`). -/
  ffStatus : Int
  /-- Bytes of the produced `preview.mp3`, as uploaded. -/
  transcodedContent : String
  /-- Whether the storage upload call succeeds at the network level. -/
  uploadOk : Bool
  /-- Whether the rmSync removal of the scratch workspace throws. -/
  rmThrows : Bool
  /-- Date.now() at this invocation, in milliseconds. -/
  now : Nat
  /-- The destination object store before the invocation. -/
  store : Store

/-- Node `path.join` restricted to the two-argument uses in the source. -/
def pathJoin (a b : String) : String := a ++ "/" ++ b

/-- JS `String.prototype.startsWith`, computed on character lists. -/
def jsStartsWith (s p : String) : Bool := p.data.isPrefixOf s.data

/-- Node `path.extname`: the suffix of the last path component starting at
its last dot, or `""` when the component has no dot or only a leading dot
(a dotfile). -/
def extname (p : String) : String :=
  let base := (p.data.reverse.takeWhile (fun c => c ≠ '/')).reverse
  let tail := base.reverse.takeWhile (fun c => c ≠ '.')
  if tail.length = base.length then ""
  else if base.length - tail.length - 1 = 0 then ""
  else String.mk ('.' :: tail.reverse)

/-- The fixed encoder argument policy from both call sites:
`['-y','-i',input,'-ss','0','-t','30','-vn','-acodec','libmp3lame','-b:a','192k',output]`. -/
def ffmpegArgs (inputPath outputPath : String) : List String :=
  ["-y", "-i", inputPath, "-ss", "0", "-t", "30", "-vn",
   "-acodec", "libmp3lame", "-b:a", "192k", outputPath]

/-- Name of the fetched input file inside the scratch workspace:
`input` + (extension of the source key, defaulting to `.mp3` when falsy). -/
def inputFileName (sourcePath : String) : String :=
  "input" ++ (if extname sourcePath = "" then ".mp3" else extname sourcePath)

/-- The generated default destination key
`previews/preview_${Date.now()}.mp3`. -/
def defaultDestPath (now : Nat) : String :=
  "previews/preview_" ++ toString now ++ ".mp3"

/-- Address of a published object, carried by the success payload
(the handler returns its public URL and path; the CLI prints the URL). -/
structure PubResult where
  bucket : ArgVal
  key : ArgVal
deriving DecidableEq, Repr

/-! ## Request handler (`part_003`) -/

/-- Server environment configuration read by the handler. -/
structure HandlerConfig where
  supabaseUrl : Option String
  serviceRoleKey : Option String

/-- Parsed JSON request body fields used by the handler. -/
structure ReqBody where
  sourceBucket : Option String
  sourcePath : Option String
  destBucket : Option String
  destPath : Option String

/-- An HTTP request: its method, and the parsed JSON body
(`none` when `req.json()` rejects, i.e. malformed JSON). -/
structure HttpReq where
  method : String
  body : Option ReqBody

/-- Result of one handler invocation: HTTP status, success payload,
event trace, scratch-workspace bookkeeping, and the final store. -/
structure HandlerResult where
  status : Nat
  pub : Option PubResult
  trace : List Event
  scratchCreated : Bool
  scratchRemoved : Bool
  store : Store

/-- Shorthand for a handler result with no success payload. -/
def errResult (status : Nat) (tr : List Event) (created removed : Bool)
    (s : Store) : HandlerResult :=
  { status := status, pub := none, trace := tr, scratchCreated := created,
    scratchRemoved := removed, store := s }

/-- Destination bucket chosen by the handler:
destructuring default `destBucket = 'beat-previews'` (applies when the
property is absent). -/
def handlerDestBucket (body : ReqBody) : ArgVal :=
  .str (body.destBucket.getD "beat-previews")

/-- Destination key chosen by the handler:
`destPath || previews/preview_${Date.now()}.mp3` (falsy check). -/
def handlerDestKey (body : ReqBody) (now : Nat) : ArgVal :=
  .str (match body.destPath with
    | some s => if s = "" then defaultDestPath now else s
    | none => defaultDestPath now)

/-- The request handler of `part_003`, translated statement by statement.
Early returns become nested branches; each external call appends its
event to the trace. -/
def handler (cfg : HandlerConfig) (req : HttpReq) (w : World) : HandlerResult :=
  if req.method ≠ "POST" then errResult 405 [] false false w.store
  else if !truthy cfg.supabaseUrl || !truthy cfg.serviceRoleKey then
    errResult 500 [] false false w.store
  else
    match req.body with
    | none => errResult 400 [] false false w.store
    | some body =>
      if !truthy body.sourceBucket || !truthy body.sourcePath then
        errResult 400 [] false false w.store
      else if w.probeSpawnError then errResult 501 [Event.probe] false false w.store
      else
        let sb : ArgVal := .str (body.sourceBucket.getD "")
        let sp : String := body.sourcePath.getD ""
        let tr1 : List Event := [Event.probe, Event.signRequest sb (.str sp)]
        match w.signedUrl with
        | none => errResult 500 tr1 false false w.store
        | some u =>
          if u = "" then errResult 500 tr1 false false w.store
          else
            let tr2 := tr1 ++ [Event.fetchSource]
            if !w.fetchOk then errResult 500 tr2 false false w.store
            else
              let tr3 := tr2 ++ [Event.mkScratch]
              let inputPath := pathJoin w.tmpDir (inputFileName sp)
              let outputPath := pathJoin w.tmpDir "preview.mp3"
              if w.bodyReadThrows then errResult 500 tr3 true false w.store
              else
                let tr4 := tr3 ++ [Event.writeInput,
                  Event.transcode (ffmpegArgs inputPath outputPath)]
                if w.ffSpawnError = true ∨ w.ffStatus ≠ 0 then
                  errResult 500 tr4 true false w.store
                else
                  let destB := handlerDestBucket body
                  let destK := handlerDestKey body w.now
                  let tr5 := tr4 ++ [Event.upload destB destK uploadOpts]
                  if !w.uploadOk then errResult 500 tr5 true false w.store
                  else
                    match storeUpload w.store destB destK w.transcodedContent uploadOpts with
                    | none => errResult 500 tr5 true false w.store
                    | some s2 =>
                      { status := 200, pub := some ⟨destB, destK⟩,
                        trace := tr5 ++ [Event.rmScratch],
                        scratchCreated := true, scratchRemoved := !w.rmThrows,
                        store := s2 }

/-! ## CLI (`part_010`, `scripts/generate_preview.js`) -/

/-- Environment read by the CLI. -/
structure CliEnv where
  supabaseUrl : Option String
  serviceRoleKey : Option String

/-- Result of one CLI invocation: process exit code, the printed public
URL (when printed), event trace, scratch bookkeeping, final store. -/
structure CliResult where
  exitCode : Nat
  printedUrl : Option PubResult
  trace : List Event
  scratchCreated : Bool
  scratchRemoved : Bool
  store : Store

/-- Shorthand for a CLI result that printed no URL. -/
def cliErr (code : Nat) (tr : List Event) (created removed : Bool)
    (s : Store) : CliResult :=
  { exitCode := code, printedUrl := none, trace := tr,
    scratchCreated := created, scratchRemoved := removed, store := s }

/-- The CLI flag parsing loop: a `--key` token takes the next token as its
string value when that token is truthy and does not itself start with
`--`; otherwise the flag gets the literal `true`.  Non-flag tokens are
skipped.  Later occurrences overwrite earlier ones (JS object assignment),
reflected here by `getArg` taking the last binding. -/
def parseArgs : List String → List (String × ArgVal)
  | [] => []
  | [a] => if jsStartsWith a "--" then [(a.drop 2, ArgVal.tru)] else []
  | a :: b :: rest2 =>
    if jsStartsWith a "--" then
      if b ≠ "" ∧ ¬ (jsStartsWith b "--") then
        (a.drop 2, ArgVal.str b) :: parseArgs rest2
      else
        (a.drop 2, ArgVal.tru) :: parseArgs (b :: rest2)
    else parseArgs (b :: rest2)

/-- Lookup of a parsed flag: the last binding for the key wins, matching
assignment into the JS object `out`. -/
def getArg (ps : List (String × ArgVal)) (k : String) : Option ArgVal :=
  ((ps.filter (fun p => p.1 == k)).getLast?).map (fun p => p.2)

/-- The `x || default` idiom applied to an optional flag value. -/
def orDefault (v : Option ArgVal) (d : String) : ArgVal :=
  match v with
  | none => .str d
  | some x => if truthyA x then x else .str d

/-- Destination bucket chosen by the CLI: `args.destBucket || 'beat-previews'`. -/
def cliDestBucket (argv : List String) : ArgVal :=
  orDefault (getArg (parseArgs argv) "destBucket") "beat-previews"

/-- Destination key chosen by the CLI:
`args.dest || previews/preview_${Date.now()}.mp3`. -/
def cliDestKey (argv : List String) (now : Nat) : ArgVal :=
  orDefault (getArg (parseArgs argv) "dest") (defaultDestPath now)

/-- The CLI `main` of `part_010`, translated statement by statement.
`process.exit(n)` becomes the exit code of the result; a thrown error
lands in the catch block, which exits 1.  Note `path.extname(sourcePath)`
throws a TypeError when the flag value is the literal `true`, which the
catch block turns into exit 1. -/
def main (argv : List String) (env : CliEnv) (w : World) : CliResult :=
  let args := parseArgs argv
  let sourceBucket := getArg args "bucket"
  let sourcePath := getArg args "path"
  let destBucket := cliDestBucket argv
  let destPath := cliDestKey argv w.now
  if !truthyV sourceBucket || !truthyV sourcePath then cliErr 2 [] false false w.store
  else if !truthy env.supabaseUrl || !truthy env.serviceRoleKey then
    cliErr 2 [] false false w.store
  else if w.probeSpawnError then cliErr 2 [Event.probe] false false w.store
  else
    let sb := sourceBucket.getD (.str "")
    let sp := sourcePath.getD (.str "")
    let tr1 := [Event.probe, Event.signRequest sb sp]
    match w.signedUrl with
    | none => cliErr 1 tr1 false false w.store
    | some u =>
      if u = "" then cliErr 1 tr1 false false w.store
      else
        let tr2 := tr1 ++ [Event.fetchSource]
        if !w.fetchOk then cliErr 1 tr2 false false w.store
        else
          let tr3 := tr2 ++ [Event.mkScratch]
          match sp with
          | .tru => cliErr 1 tr3 true false w.store
          | .str sps =>
            let inputPath := pathJoin w.tmpDir (inputFileName sps)
            let outputPath := pathJoin w.tmpDir "preview.mp3"
            if w.bodyReadThrows then cliErr 1 tr3 true false w.store
            else
              let tr4 := tr3 ++ [Event.writeInput,
                Event.transcode (ffmpegArgs inputPath outputPath)]
              if w.ffSpawnError = true ∨ w.ffStatus ≠ 0 then
                cliErr 1 tr4 true false w.store
              else
                let tr5 := tr4 ++ [Event.upload destBucket destPath uploadOpts]
                if !w.uploadOk then cliErr 1 tr5 true false w.store
                else
                  match storeUpload w.store destBucket destPath w.transcodedContent uploadOpts with
                  | none => cliErr 1 tr5 true false w.store
                  | some s2 =>
                    { exitCode := 0, printedUrl := some ⟨destBucket, destPath⟩,
                      trace := tr5 ++ [Event.rmScratch],
                      scratchCreated := true, scratchRemoved := !w.rmThrows,
                      store := s2 }

/-! ## Predicates used in claim statements -/

/-- Usage/configuration error conditions of the CLI: a required flag is
missing (falsy), an environment credential is missing (falsy), or the
encoder version probe fails to spawn.  These are exactly the conditions
under which the source calls `process.exit(2)`. -/
def cliUsageError (argv : List String) (env : CliEnv) (w : World) : Prop :=
  truthyV (getArg (parseArgs argv) "bucket") = false ∨
  truthyV (getArg (parseArgs argv) "path") = false ∨
  truthy env.supabaseUrl = false ∨ truthy env.serviceRoleKey = false ∨
  w.probeSpawnError = true

/-- All external pipeline stages succeed: signing, fetch, body read,
transcode spawn and exit status, upload. -/
def pipelineOk (w : World) : Prop :=
  (∃ u, w.signedUrl = some u ∧ u ≠ "") ∧ w.fetchOk = true ∧
  w.bodyReadThrows = false ∧ w.ffSpawnError = false ∧ w.ffStatus = 0 ∧
  w.uploadOk = true

/-- Conditions under which the CLI run succeeds end to end: both required
flags present and truthy, the `--path` value a non-empty string (a literal
`true` value makes `path.extname` throw), credentials present, the probe
spawns, and every pipeline stage succeeds. -/
def cliSuccessConds (argv : List String) (env : CliEnv) (w : World) : Prop :=
  truthyV (getArg (parseArgs argv) "bucket") = true ∧
  truthyV (getArg (parseArgs argv) "path") = true ∧
  (∃ s, (getArg (parseArgs argv) "path").getD (ArgVal.str "") = ArgVal.str s) ∧
  truthy env.supabaseUrl = true ∧ truthy env.serviceRoleKey = true ∧
  w.probeSpawnError = false ∧ pipelineOk w

/-- Ordering discipline on a trace: every upload event is preceded
(strictly earlier in the trace) by a transcode event, witnessed by the
two-event sublist. -/
def uploadsAfterTranscode (tr : List Event) : Prop :=
  ∀ b k o, Event.upload b k o ∈ tr →
    ∃ a, List.Sublist [Event.transcode a, Event.upload b k o] tr

/-! ## Concrete instances used by witnesses and counterexamples -/

/-- The empty destination store. -/
def store0 : Store := fun _ _ => none

/-- A fully provisioned server configuration. -/
def cfg0 : HandlerConfig := ⟨some "https://x.supabase.co", some "service-key"⟩

/-- A well-formed request body naming a source object and a destination key. -/
def body0 : ReqBody := ⟨some "beats", some "mp3/track1.wav", none, some "previews/t1.mp3"⟩

/-- A well-formed POST request carrying `body0`. -/
def req0 : HttpReq := ⟨"POST", some body0⟩

/-- A fully provisioned CLI environment. -/
def env0 : CliEnv := ⟨some "https://x.supabase.co", some "service-key"⟩

/-- CLI argument vector naming the same source object and destination key. -/
def argv0 : List String :=
  ["--bucket", "beats", "--path", "mp3/track1.wav", "--dest", "previews/t1.mp3"]

/-- A world in which every external step succeeds. -/
def wOk : World :=
  { probeSpawnError := false, signedUrl := some "https://signed.example/u",
    fetchOk := true, tmpDir := "/tmp/preview-XYZ", bodyReadThrows := false,
    ffSpawnError := false, ffStatus := 0, transcodedContent := "MP3BYTES",
    uploadOk := true, rmThrows := false, now := 1717171717, store := store0 }

/-- A world in which the encoding subprocess exits with status 1. -/
def wFfFail : World := { wOk with ffStatus := 1 }

/-- A world in which the encoder version probe fails to spawn. -/
def wNoTool : World := { wOk with probeSpawnError := true }

/-- A world in which everything succeeds but the scratch removal throws. -/
def wRmFail : World := { wOk with rmThrows := true }

/-- A second all-success world with different encoder output bytes,
used for the second run of the overwrite scenario. -/
def wSecond : World := { wOk with transcodedContent := "MP3BYTES2" }

/-- A configuration with the store endpoint missing. -/
def cfgBad : HandlerConfig := ⟨none, some "service-key"⟩

/-- A request body missing `sourcePath`. -/
def bodyBad : ReqBody := ⟨some "beats", none, none, none⟩

/-! ## Helper lemmas -/

/-- With the `upsert` option, the storage upload always succeeds and
overwrites the object at the key. -/
theorem storeUpload_upsert (s : Store) (b k : ArgVal) (c : String) :
    storeUpload s b k c uploadOpts =
      some (fun b2 k2 => if b2 = b ∧ k2 = k then some c else s b2 k2) := by
  simp [storeUpload, uploadOpts]

/-- Characterization of a fully successful handler run. -/
theorem handler_success_spec (cfg : HandlerConfig) (body : ReqBody) (w : World)
    (u : String)
    (h1 : truthy cfg.supabaseUrl = true) (h2 : truthy cfg.serviceRoleKey = true)
    (h3 : truthy body.sourceBucket = true) (h4 : truthy body.sourcePath = true)
    (h5 : w.probeSpawnError = false) (h6 : w.signedUrl = some u) (h7 : u ≠ "")
    (h8 : w.fetchOk = true) (h9 : w.bodyReadThrows = false)
    (h10 : w.ffSpawnError = false) (h11 : w.ffStatus = 0)
    (h12 : w.uploadOk = true) :
    handler cfg ⟨"POST", some body⟩ w =
      { status := 200,
        pub := some ⟨handlerDestBucket body, handlerDestKey body w.now⟩,
        trace := [Event.probe,
          Event.signRequest (.str (body.sourceBucket.getD ""))
            (.str (body.sourcePath.getD "")),
          Event.fetchSource, Event.mkScratch, Event.writeInput,
          Event.transcode (ffmpegArgs
            (pathJoin w.tmpDir (inputFileName (body.sourcePath.getD "")))
            (pathJoin w.tmpDir "preview.mp3")),
          Event.upload (handlerDestBucket body) (handlerDestKey body w.now) uploadOpts,
          Event.rmScratch],
        scratchCreated := true, scratchRemoved := !w.rmThrows,
        store := fun b k =>
          if b = handlerDestBucket body ∧ k = handlerDestKey body w.now
          then some w.transcodedContent else w.store b k } := by
  unfold handler
  simp [h1, h2, h3, h4, h5, h6, h7, h8, h9, h10, h11, h12, storeUpload, uploadOpts]

/-- A non-empty string flag value is truthy. -/
theorem truthyA_str_ne (s : String) (h : s ≠ "") : truthyA (ArgVal.str s) = true := by
  simp [truthyA, h]

/-- Characterization of a fully successful CLI run. -/
theorem main_success_spec (argv : List String) (env : CliEnv) (w : World)
    (bv : ArgVal) (sps u : String)
    (hb : getArg (parseArgs argv) "bucket" = some bv) (htb : truthyA bv = true)
    (hp : getArg (parseArgs argv) "path" = some (.str sps)) (hts : sps ≠ "")
    (h1 : truthy env.supabaseUrl = true) (h2 : truthy env.serviceRoleKey = true)
    (h5 : w.probeSpawnError = false) (h6 : w.signedUrl = some u) (h7 : u ≠ "")
    (h8 : w.fetchOk = true) (h9 : w.bodyReadThrows = false)
    (h10 : w.ffSpawnError = false) (h11 : w.ffStatus = 0)
    (h12 : w.uploadOk = true) :
    main argv env w =
      { exitCode := 0,
        printedUrl := some ⟨cliDestBucket argv, cliDestKey argv w.now⟩,
        trace := [Event.probe, Event.signRequest bv (.str sps),
          Event.fetchSource, Event.mkScratch, Event.writeInput,
          Event.transcode (ffmpegArgs (pathJoin w.tmpDir (inputFileName sps))
            (pathJoin w.tmpDir "preview.mp3")),
          Event.upload (cliDestBucket argv) (cliDestKey argv w.now) uploadOpts,
          Event.rmScratch],
        scratchCreated := true, scratchRemoved := !w.rmThrows,
        store := fun b k =>
          if b = cliDestBucket argv ∧ k = cliDestKey argv w.now
          then some w.transcodedContent else w.store b k } := by
  unfold main
  simp [hb, htb, hp, hts, truthyA_str_ne sps hts, h1, h2, h5, h6, h7, h8,
    h9, h10, h11, h12, truthyV, storeUpload, uploadOpts]

set_option maxHeartbeats 2000000 in
/-- Every upload event the handler ever emits carries the options literal
`{ upsert: true }` and no content type. -/
theorem handler_upload_opts (cfg : HandlerConfig) (req : HttpReq) (w : World)
    (b k : ArgVal) (o : UploadOptions)
    (h : Event.upload b k o ∈ (handler cfg req w).trace) : o = uploadOpts := by
  unfold handler at h
  repeat' split at h
  all_goals (try simp only [storeUpload_upsert] at h)
  all_goals simp_all [errResult]

set_option maxHeartbeats 2000000 in
/-- Every upload event the CLI ever emits carries the options literal
`{ upsert: true }` and no content type. -/
theorem main_upload_opts (argv : List String) (env : CliEnv) (w : World)
    (b k : ArgVal) (o : UploadOptions)
    (h : Event.upload b k o ∈ (main argv env w).trace) : o = uploadOpts := by
  unfold main at h
  simp only [storeUpload_upsert] at h
  repeat' split at h
  all_goals simp_all [cliErr]

set_option maxHeartbeats 2000000 in
/-- Every transcode event the handler ever emits carries the fixed policy
argument list, with output path `preview.mp3` inside the scratch dir. -/
theorem handler_transcode_args (cfg : HandlerConfig) (req : HttpReq) (w : World)
    (a : List String) (h : Event.transcode a ∈ (handler cfg req w).trace) :
    ∃ inp, a = ffmpegArgs inp (pathJoin w.tmpDir "preview.mp3") := by
  unfold handler at h
  repeat' split at h
  all_goals (try simp only [storeUpload_upsert] at h)
  all_goals simp_all [errResult, ffmpegArgs]

set_option maxHeartbeats 2000000 in
/-- Every transcode event the CLI ever emits carries the fixed policy
argument list, with output path `preview.mp3` inside the scratch dir. -/
theorem main_transcode_args (argv : List String) (env : CliEnv) (w : World)
    (a : List String) (h : Event.transcode a ∈ (main argv env w).trace) :
    ∃ inp, a = ffmpegArgs inp (pathJoin w.tmpDir "preview.mp3") := by
  unfold main at h
  simp only [storeUpload_upsert] at h
  repeat' split at h
  all_goals simp_all [cliErr, ffmpegArgs]

set_option maxHeartbeats 2000000 in
/-- When the encoder version probe fails to spawn, the handler performs no
network call against the source store. -/
theorem handler_no_source_calls (cfg : HandlerConfig) (req : HttpReq)
    (w : World) (hp : w.probeSpawnError = true) :
    (handler cfg req w).trace.any isSourceStoreCall = false := by
  unfold handler
  repeat' split
  all_goals simp_all [errResult, isSourceStoreCall]

set_option maxHeartbeats 2000000 in
/-- When the encoder version probe fails to spawn, the CLI performs no
network call against the source store. -/
theorem main_no_source_calls (argv : List String) (env : CliEnv) (w : World)
    (hp : w.probeSpawnError = true) :
    (main argv env w).trace.any isSourceStoreCall = false := by
  unfold main
  simp only [storeUpload_upsert]
  repeat' split
  all_goals simp_all [cliErr, isSourceStoreCall]

set_option maxHeartbeats 2000000 in
/-- Every handler trace obeys the ordering discipline: an upload happens
only strictly after a transcode. -/
theorem handler_uploads_after_transcode (cfg : HandlerConfig) (req : HttpReq)
    (w : World) : uploadsAfterTranscode (handler cfg req w).trace := by
  generalize hres : handler cfg req w = r
  unfold handler at hres
  repeat' split at hres
  all_goals (try simp only [storeUpload_upsert] at hres)
  all_goals subst hres
  all_goals intro b k o hm
  all_goals simp_all [errResult]
  all_goals (try (obtain ⟨rfl, rfl, rfl⟩ := hm))
  all_goals first
    | exact ⟨_, List.Sublist.cons _ (List.Sublist.cons _ (List.Sublist.cons _
        (List.Sublist.cons _ (List.Sublist.cons _ (List.Sublist.cons₂ _
        (List.Sublist.cons₂ _ List.Sublist.slnil))))))⟩
    | exact ⟨_, List.Sublist.cons _ (List.Sublist.cons _ (List.Sublist.cons _
        (List.Sublist.cons _ (List.Sublist.cons _ (List.Sublist.cons₂ _
        (List.Sublist.cons₂ _ (List.Sublist.cons _ List.Sublist.slnil)))))))⟩

set_option maxHeartbeats 2000000 in
/-- Every CLI trace obeys the ordering discipline: an upload happens only
strictly after a transcode. -/
theorem main_uploads_after_transcode (argv : List String) (env : CliEnv)
    (w : World) : uploadsAfterTranscode (main argv env w).trace := by
  generalize hres : main argv env w = r
  unfold main at hres
  simp only [storeUpload_upsert] at hres
  repeat' split at hres
  all_goals subst hres
  all_goals intro b k o hm
  all_goals simp_all [cliErr]
  all_goals (try (obtain ⟨rfl, rfl, rfl⟩ := hm))
  all_goals first
    | exact ⟨_, List.Sublist.cons _ (List.Sublist.cons _ (List.Sublist.cons _
        (List.Sublist.cons _ (List.Sublist.cons _ (List.Sublist.cons₂ _
        (List.Sublist.cons₂ _ List.Sublist.slnil))))))⟩
    | exact ⟨_, List.Sublist.cons _ (List.Sublist.cons _ (List.Sublist.cons _
        (List.Sublist.cons _ (List.Sublist.cons _ (List.Sublist.cons₂ _
        (List.Sublist.cons₂ _ (List.Sublist.cons _ List.Sublist.slnil)))))))⟩

set_option maxHeartbeats 2000000 in
/-- The handler emits an upload event only when the encoding subprocess
spawned and exited with status 0. -/
theorem handler_upload_needs_ff (cfg : HandlerConfig) (req : HttpReq)
    (w : World) (b k : ArgVal) (o : UploadOptions)
    (h : Event.upload b k o ∈ (handler cfg req w).trace) :
    w.ffSpawnError = false ∧ w.ffStatus = 0 := by
  unfold handler at h
  repeat' split at h
  all_goals (try simp only [storeUpload_upsert] at h)
  all_goals simp_all [errResult]

set_option maxHeartbeats 2000000 in
/-- The CLI emits an upload event only when the encoding subprocess
spawned and exited with status 0. -/
theorem main_upload_needs_ff (argv : List String) (env : CliEnv) (w : World)
    (b k : ArgVal) (o : UploadOptions)
    (h : Event.upload b k o ∈ (main argv env w).trace) :
    w.ffSpawnError = false ∧ w.ffStatus = 0 := by
  unfold main at h
  simp only [storeUpload_upsert] at h
  repeat' split at h
  all_goals simp_all [cliErr]

set_option maxHeartbeats 2000000 in
/-- The handler removes the scratch workspace exactly on the 200 path and
only when the removal call does not throw. -/
theorem handler_removed_iff (cfg : HandlerConfig) (req : HttpReq) (w : World) :
    (handler cfg req w).scratchRemoved = true ↔
      ((handler cfg req w).status = 200 ∧ w.rmThrows = false) := by
  generalize hres : handler cfg req w = r
  unfold handler at hres
  repeat' split at hres
  all_goals (try simp only [storeUpload_upsert] at hres)
  all_goals subst hres
  all_goals simp [errResult]

set_option maxHeartbeats 2000000 in
/-- The CLI removes the scratch workspace exactly on the exit-0 path and
only when the removal call does not throw. -/
theorem main_removed_iff (argv : List String) (env : CliEnv) (w : World) :
    (main argv env w).scratchRemoved = true ↔
      ((main argv env w).exitCode = 0 ∧ w.rmThrows = false) := by
  generalize hres : main argv env w = r
  unfold main at hres
  simp only [storeUpload_upsert] at hres
  repeat' split at hres
  all_goals subst hres
  all_goals simp [cliErr]

set_option maxHeartbeats 2000000 in
/-- The CLI exits with one of the codes 0, 1, 2. -/
theorem main_exit_cases (argv : List String) (env : CliEnv) (w : World) :
    (main argv env w).exitCode = 0 ∨ (main argv env w).exitCode = 1 ∨
      (main argv env w).exitCode = 2 := by
  generalize hres : main argv env w = r
  unfold main at hres
  simp only [storeUpload_upsert] at hres
  repeat' split at hres
  all_goals subst hres
  all_goals simp [cliErr]

set_option maxHeartbeats 2000000 in
/-- The CLI exits with code 2 exactly on usage or configuration errors. -/
theorem main_exit2_iff (argv : List String) (env : CliEnv) (w : World) :
    (main argv env w).exitCode = 2 ↔ cliUsageError argv env w := by
  generalize hres : main argv env w = r
  unfold main at hres
  simp only [storeUpload_upsert] at hres
  repeat' split at hres
  all_goals subst hres
  all_goals simp_all [cliErr, cliUsageError, truthyV]
  all_goals tauto

set_option maxHeartbeats 2000000 in
/-- The CLI exits with code 0 exactly when flags, environment, probe and
every pipeline stage succeed. -/
theorem main_exit0_iff (argv : List String) (env : CliEnv) (w : World) :
    (main argv env w).exitCode = 0 ↔ cliSuccessConds argv env w := by
  generalize hres : main argv env w = r
  unfold main at hres
  simp only [storeUpload_upsert] at hres
  repeat' split at hres
  all_goals subst hres
  all_goals simp_all [cliErr, cliSuccessConds, pipelineOk]
  all_goals (intros; simp_all)

/-! ## Claims -/

/-- Claim C1 is false as stated: a transcode-failure invocation completes
(the handler responds 500, the CLI exits 1) with the scratch workspace
created but never removed, so the directory still exists after the
invocation. -/
theorem claim_C1_counterexample :
    (handler cfg0 req0 wFfFail).status = 500 ∧
    (handler cfg0 req0 wFfFail).scratchCreated = true ∧
    (handler cfg0 req0 wFfFail).scratchRemoved = false ∧
    (main argv0 env0 wFfFail).exitCode = 1 ∧
    (main argv0 env0 wFfFail).scratchCreated = true ∧
    (main argv0 env0 wFfFail).scratchRemoved = false := by
  refine ⟨by decide, by decide, by decide, by decide, by decide, by decide⟩

/-- Claim C1 (amended): the scratch workspace is removed exactly when the
invocation completes fully successfully (handler status 200, CLI exit
code 0) and the removal call itself does not throw; on every failure exit
path a created workspace is left behind. -/
theorem claim_C1_amended (cfg : HandlerConfig) (req : HttpReq) (w : World)
    (argv : List String) (env : CliEnv) :
    ((handler cfg req w).scratchRemoved = true ↔
      ((handler cfg req w).status = 200 ∧ w.rmThrows = false)) ∧
    ((main argv env w).scratchRemoved = true ↔
      ((main argv env w).exitCode = 0 ∧ w.rmThrows = false)) :=
  ⟨handler_removed_iff cfg req w, main_removed_iff argv env w⟩

/-- Witness for the amended claim C1 at concrete inputs. -/
theorem claim_C1_amended_witness :
    ((handler cfg0 req0 wOk).scratchRemoved = true ↔
      ((handler cfg0 req0 wOk).status = 200 ∧ wOk.rmThrows = false)) ∧
    ((main argv0 env0 wOk).scratchRemoved = true ↔
      ((main argv0 env0 wOk).exitCode = 0 ∧ wOk.rmThrows = false)) :=
  claim_C1_amended cfg0 req0 wOk argv0 env0

/-- Claim C2 is false as stated: a fully successful invocation publishes
the artifact, yet no upload call carries content type `audio/mpeg` —
the upload options specify no content type at all. -/
theorem claim_C2_counterexample :
    (handler cfg0 req0 wOk).status = 200 ∧
    (handler cfg0 req0 wOk).trace.any isUpload = true ∧
    (handler cfg0 req0 wOk).trace.any (uploadContentTypeIs "audio/mpeg") = false ∧
    (main argv0 env0 wOk).exitCode = 0 ∧
    (main argv0 env0 wOk).trace.any isUpload = true ∧
    (main argv0 env0 wOk).trace.any (uploadContentTypeIs "audio/mpeg") = false := by
  refine ⟨by decide, by decide, by decide, by decide, by decide, by decide⟩

/-- Claim C2 (amended): every successful invocation publishes the artifact
through an upload whose options set `upsert` and specify no content type;
the pipeline never sets an `audio/mpeg` content type. -/
theorem claim_C2_amended (cfg : HandlerConfig) (req : HttpReq) (w : World)
    (argv : List String) (env : CliEnv) :
    (∀ b k o, Event.upload b k o ∈ (handler cfg req w).trace →
       o.upsert = true ∧ o.contentType = none) ∧
    (∀ b k o, Event.upload b k o ∈ (main argv env w).trace →
       o.upsert = true ∧ o.contentType = none) := by
  constructor
  · intro b k o h
    rcases handler_upload_opts cfg req w b k o h with rfl
    exact ⟨rfl, rfl⟩
  · intro b k o h
    rcases main_upload_opts argv env w b k o h with rfl
    exact ⟨rfl, rfl⟩

/-- Witness for the amended claim C2 at a concrete successful run. -/
theorem claim_C2_amended_witness :
    uploadOpts.upsert = true ∧ uploadOpts.contentType = none :=
  (claim_C2_amended cfg0 req0 wOk argv0 env0).1
    (ArgVal.str "beat-previews") (ArgVal.str "previews/t1.mp3") uploadOpts
    (by decide)

/-- Claim C3: whenever the encoder subprocess is spawned, in either entry
point, its argument list is exactly the fixed policy — overwrite (`-y`),
offset 0, duration 30, no video, codec libmp3lame, bitrate 192k, output
`preview.mp3` inside the invocation's scratch workspace. -/
theorem claim_C3 (cfg : HandlerConfig) (req : HttpReq) (w : World)
    (argv : List String) (env : CliEnv) :
    (∀ a, Event.transcode a ∈ (handler cfg req w).trace →
       ∃ inp, a = ["-y", "-i", inp, "-ss", "0", "-t", "30", "-vn", "-acodec",
         "libmp3lame", "-b:a", "192k", pathJoin w.tmpDir "preview.mp3"]) ∧
    (∀ a, Event.transcode a ∈ (main argv env w).trace →
       ∃ inp, a = ["-y", "-i", inp, "-ss", "0", "-t", "30", "-vn", "-acodec",
         "libmp3lame", "-b:a", "192k", pathJoin w.tmpDir "preview.mp3"]) := by
  constructor
  · intro a h
    exact handler_transcode_args cfg req w a h
  · intro a h
    exact main_transcode_args argv env w a h

/-- Witness for claim C3 at a concrete run that reaches transcoding. -/
theorem claim_C3_witness :
    ∃ inp, ffmpegArgs "/tmp/preview-XYZ/input.wav" "/tmp/preview-XYZ/preview.mp3"
      = ["-y", "-i", inp, "-ss", "0", "-t", "30", "-vn", "-acodec",
         "libmp3lame", "-b:a", "192k", pathJoin "/tmp/preview-XYZ" "preview.mp3"] :=
  (claim_C3 cfg0 req0 wOk argv0 env0).1
    (ffmpegArgs "/tmp/preview-XYZ/input.wav" "/tmp/preview-XYZ/preview.mp3")
    (by decide)

/-- Claim C4: when the encoder version probe fails to spawn, neither entry
point makes any network call to the source store — no signed URL is
requested and no fetch of the source object occurs. -/
theorem claim_C4 (cfg : HandlerConfig) (req : HttpReq) (w : World)
    (argv : List String) (env : CliEnv) (h : w.probeSpawnError = true) :
    (handler cfg req w).trace.any isSourceStoreCall = false ∧
    (main argv env w).trace.any isSourceStoreCall = false :=
  ⟨handler_no_source_calls cfg req w h, main_no_source_calls argv env w h⟩

/-- Witness for claim C4 in a concrete world without the encoding tool. -/
theorem claim_C4_witness :
    (handler cfg0 req0 wNoTool).trace.any isSourceStoreCall = false ∧
    (main argv0 env0 wNoTool).trace.any isSourceStoreCall = false :=
  claim_C4 cfg0 req0 wNoTool argv0 env0 (by decide)

/-- Claim C5: an upload is attempted only when the transcode subprocess
spawned and exited with status 0, and any upload event in a trace is
strictly preceded by the transcode event; on spawn failure or non-zero
exit no upload ever happens in either entry point. -/
theorem claim_C5 (cfg : HandlerConfig) (req : HttpReq) (w : World)
    (argv : List String) (env : CliEnv) :
    ((w.ffSpawnError = true ∨ w.ffStatus ≠ 0) →
       (∀ b k o, Event.upload b k o ∉ (handler cfg req w).trace) ∧
       (∀ b k o, Event.upload b k o ∉ (main argv env w).trace)) ∧
    (∀ b k o, Event.upload b k o ∈ (handler cfg req w).trace →
       w.ffSpawnError = false ∧ w.ffStatus = 0 ∧
       ∃ a, List.Sublist [Event.transcode a, Event.upload b k o]
         (handler cfg req w).trace) ∧
    (∀ b k o, Event.upload b k o ∈ (main argv env w).trace →
       w.ffSpawnError = false ∧ w.ffStatus = 0 ∧
       ∃ a, List.Sublist [Event.transcode a, Event.upload b k o]
         (main argv env w).trace) := by
  refine ⟨?_, ?_, ?_⟩
  · intro hff
    constructor
    · intro b k o hmem
      have hok := handler_upload_needs_ff cfg req w b k o hmem
      rcases hff with hff | hff <;> simp_all
    · intro b k o hmem
      have hok := main_upload_needs_ff argv env w b k o hmem
      rcases hff with hff | hff <;> simp_all
  · intro b k o h
    obtain ⟨h1, h2⟩ := handler_upload_needs_ff cfg req w b k o h
    exact ⟨h1, h2, handler_uploads_after_transcode cfg req w b k o h⟩
  · intro b k o h
    obtain ⟨h1, h2⟩ := main_upload_needs_ff argv env w b k o h
    exact ⟨h1, h2, main_uploads_after_transcode argv env w b k o h⟩

/-- Witness for claim C5: on a concrete transcode-failure run no upload
appears, and on a concrete successful run the subprocess indeed exited 0. -/
theorem claim_C5_witness :
    (Event.upload (ArgVal.str "beat-previews") (ArgVal.str "previews/t1.mp3")
      uploadOpts ∉ (handler cfg0 req0 wFfFail).trace) ∧
    wOk.ffSpawnError = false ∧ wOk.ffStatus = 0 :=
  ⟨((claim_C5 cfg0 req0 wFfFail argv0 env0).1 (by decide)).1
      (ArgVal.str "beat-previews") (ArgVal.str "previews/t1.mp3") uploadOpts,
   ((claim_C5 cfg0 req0 wOk argv0 env0).2.1
      (ArgVal.str "beat-previews") (ArgVal.str "previews/t1.mp3") uploadOpts
      (by decide)).1,
   ((claim_C5 cfg0 req0 wOk argv0 env0).2.1
      (ArgVal.str "beat-previews") (ArgVal.str "previews/t1.mp3") uploadOpts
      (by decide)).2.1⟩

/-- Claim C6: the handler responds 405 to every non-POST request; responds
500 when an environment value is missing (falsy), without the result
depending on the request body in any way; and responds 400, before any
store interaction (empty event trace), when the body is malformed JSON or
its `sourceBucket`/`sourcePath` field is missing (falsy). -/
theorem claim_C6 (cfg : HandlerConfig) (w : World) :
    (∀ req, req.method ≠ "POST" → (handler cfg req w).status = 405) ∧
    ((truthy cfg.supabaseUrl = false ∨ truthy cfg.serviceRoleKey = false) →
       ∀ b, ((handler cfg ⟨"POST", b⟩ w).status = 500 ∧
         ∀ c, handler cfg ⟨"POST", b⟩ w = handler cfg ⟨"POST", c⟩ w)) ∧
    (truthy cfg.supabaseUrl = true → truthy cfg.serviceRoleKey = true →
       ((handler cfg ⟨"POST", none⟩ w).status = 400 ∧
        (handler cfg ⟨"POST", none⟩ w).trace = []) ∧
       ∀ body, (truthy body.sourceBucket = false ∨ truthy body.sourcePath = false) →
         ((handler cfg ⟨"POST", some body⟩ w).status = 400 ∧
          (handler cfg ⟨"POST", some body⟩ w).trace = [])) := by
  refine ⟨?_, ?_, ?_⟩
  · intro req hm
    unfold handler
    simp [hm, errResult]
  · intro henv b
    constructor
    · unfold handler
      rcases henv with h | h <;> simp [h, errResult]
    · intro c
      unfold handler
      rcases henv with h | h <;> simp [h]
  · intro h1 h2
    constructor
    · unfold handler
      simp [h1, h2, errResult]
    · intro body hb
      unfold handler
      rcases hb with h | h <;> simp [h1, h2, h, errResult]

/-- Witness for claim C6 at concrete requests: a GET request, a missing
environment value, a malformed body, and a body missing `sourcePath`. -/
theorem claim_C6_witness :
    (handler cfg0 ⟨"GET", some body0⟩ wOk).status = 405 ∧
    ((handler cfgBad ⟨"POST", some body0⟩ wOk).status = 500 ∧
      handler cfgBad ⟨"POST", some body0⟩ wOk = handler cfgBad ⟨"POST", none⟩ wOk) ∧
    ((handler cfg0 ⟨"POST", none⟩ wOk).status = 400 ∧
     (handler cfg0 ⟨"POST", none⟩ wOk).trace = []) ∧
    ((handler cfg0 ⟨"POST", some bodyBad⟩ wOk).status = 400 ∧
     (handler cfg0 ⟨"POST", some bodyBad⟩ wOk).trace = []) :=
  ⟨(claim_C6 cfg0 wOk).1 ⟨"GET", some body0⟩ (by decide),
   ⟨((claim_C6 cfgBad wOk).2.1 (by decide) (some body0)).1,
    ((claim_C6 cfgBad wOk).2.1 (by decide) (some body0)).2 none⟩,
   ((claim_C6 cfg0 wOk).2.2 (by decide) (by decide)).1,
   ((claim_C6 cfg0 wOk).2.2 (by decide) (by decide)).2 bodyBad (by decide)⟩

/-- Claim C7: the CLI always exits with 0, 1 or 2; it exits 2 exactly when
a required flag is missing (falsy), an environment credential is missing,
or the encoding tool probe fails to spawn; it exits 0 exactly when every
stage succeeds; and it exits 1 exactly in the remaining cases — the other
pipeline failures (signing, fetch, transcode, upload, and errors thrown
inside the pipeline). -/
theorem claim_C7 (argv : List String) (env : CliEnv) (w : World) :
    ((main argv env w).exitCode = 0 ∨ (main argv env w).exitCode = 1 ∨
      (main argv env w).exitCode = 2) ∧
    ((main argv env w).exitCode = 2 ↔ cliUsageError argv env w) ∧
    ((main argv env w).exitCode = 0 ↔ cliSuccessConds argv env w) ∧
    ((main argv env w).exitCode = 1 ↔
      (¬ cliUsageError argv env w ∧ ¬ cliSuccessConds argv env w)) := by
  have hc := main_exit_cases argv env w
  have h2 := main_exit2_iff argv env w
  have h0 := main_exit0_iff argv env w
  refine ⟨hc, h2, h0, ?_, ?_⟩
  · intro h1
    constructor
    · intro hu
      have := h2.mpr hu
      simp [h1] at this
    · intro hs
      have := h0.mpr hs
      simp [h1] at this
  · rintro ⟨hu, hs⟩
    rcases hc with h | h | h
    · exact absurd (h0.mp h) hs
    · exact h
    · exact absurd (h2.mp h) hu

/-- Witness for claim C7 at concrete inputs. -/
theorem claim_C7_witness :
    ((main argv0 env0 wOk).exitCode = 0 ∨ (main argv0 env0 wOk).exitCode = 1 ∨
      (main argv0 env0 wOk).exitCode = 2) ∧
    ((main argv0 env0 wOk).exitCode = 2 ↔ cliUsageError argv0 env0 wOk) ∧
    ((main argv0 env0 wOk).exitCode = 0 ↔ cliSuccessConds argv0 env0 wOk) ∧
    ((main argv0 env0 wOk).exitCode = 1 ↔
      (¬ cliUsageError argv0 env0 wOk ∧ ¬ cliSuccessConds argv0 env0 wOk)) :=
  claim_C7 argv0 env0 wOk

/-- Claim C8: publication is last-write-wins.  Every upload of either
entry point carries the upsert option; and running the handler pipeline
twice with the same caller-supplied destination key leaves exactly the
second run's bytes at that key, with every other (bucket, key) unchanged
from before the first run — no duplicate or versioned objects. -/
theorem claim_C8 (cfg : HandlerConfig) (body : ReqBody) (w1 w2 : World)
    (k : String) (argv : List String) (env : CliEnv)
    (hc1 : truthy cfg.supabaseUrl = true) (hc2 : truthy cfg.serviceRoleKey = true)
    (hb1 : truthy body.sourceBucket = true) (hb2 : truthy body.sourcePath = true)
    (hk : body.destPath = some k) (hkne : k ≠ "")
    (hp1 : w1.probeSpawnError = false) (hp2 : w2.probeSpawnError = false)
    (hw1 : pipelineOk w1) (hw2 : pipelineOk w2) :
    (∀ b k2 o, Event.upload b k2 o ∈ (handler cfg ⟨"POST", some body⟩ w1).trace →
       o.upsert = true) ∧
    (∀ b k2 o, Event.upload b k2 o ∈ (main argv env w1).trace →
       o.upsert = true) ∧
    ((handler cfg ⟨"POST", some body⟩
        { w2 with store := (handler cfg ⟨"POST", some body⟩ w1).store }).store
        (handlerDestBucket body) (ArgVal.str k) = some w2.transcodedContent) ∧
    (∀ b2 k2, ¬(b2 = handlerDestBucket body ∧ k2 = ArgVal.str k) →
       (handler cfg ⟨"POST", some body⟩
          { w2 with store := (handler cfg ⟨"POST", some body⟩ w1).store }).store
          b2 k2 = w1.store b2 k2) := by
  obtain ⟨⟨u1, hs1, hu1⟩, hf1, hbr1, hfe1, hfs1, hup1⟩ := hw1
  obtain ⟨⟨u2, hs2, hu2⟩, hf2, hbr2, hfe2, hfs2, hup2⟩ := hw2
  have hdk : ∀ n, handlerDestKey body n = ArgVal.str k := by
    intro n
    simp [handlerDestKey, hk, hkne]
  have hrun1 := handler_success_spec cfg body w1 u1 hc1 hc2 hb1 hb2 hp1 hs1 hu1
    hf1 hbr1 hfe1 hfs1 hup1
  have hrun2 := handler_success_spec cfg body
    { w2 with store := (handler cfg ⟨"POST", some body⟩ w1).store } u2 hc1 hc2 hb1 hb2
    (by simp [hp2]) (by simp [hs2]) hu2 (by simp [hf2]) (by simp [hbr2])
    (by simp [hfe2]) (by simp [hfs2]) (by simp [hup2])
  refine ⟨?_, ?_, ?_, ?_⟩
  · intro b k2 o h
    rcases handler_upload_opts cfg ⟨"POST", some body⟩ w1 b k2 o h with rfl
    rfl
  · intro b k2 o h
    rcases main_upload_opts argv env w1 b k2 o h with rfl
    rfl
  · rw [hrun2]
    simp [hdk]
  · intro b2 k2 hne
    rw [hrun2]
    simp only [hdk]
    simp only [hne, if_neg, if_false]
    rw [hrun1]
    simp only [hdk]
    simp [hne]

/-- Witness for claim C8: two concrete successful runs with the same
destination key; the second run's bytes win and an unrelated key is
untouched. -/
theorem claim_C8_witness :
    ((handler cfg0 ⟨"POST", some body0⟩
        { wSecond with store := (handler cfg0 ⟨"POST", some body0⟩ wOk).store }).store
        (handlerDestBucket body0) (ArgVal.str "previews/t1.mp3")
      = some wSecond.transcodedContent) ∧
    ((handler cfg0 ⟨"POST", some body0⟩
        { wSecond with store := (handler cfg0 ⟨"POST", some body0⟩ wOk).store }).store
        (ArgVal.str "beats") (ArgVal.str "other.mp3") = wOk.store (ArgVal.str "beats") (ArgVal.str "other.mp3")) :=
  ⟨(claim_C8 cfg0 body0 wOk wSecond "previews/t1.mp3" argv0 env0
      (by decide) (by decide) (by decide) (by decide) rfl (by decide)
      (by decide) (by decide)
      ⟨⟨"https://signed.example/u", rfl, by decide⟩, rfl, rfl, rfl, rfl, rfl⟩
      ⟨⟨"https://signed.example/u", rfl, by decide⟩, rfl, rfl, rfl, rfl, rfl⟩).2.2.1,
   (claim_C8 cfg0 body0 wOk wSecond "previews/t1.mp3" argv0 env0
      (by decide) (by decide) (by decide) (by decide) rfl (by decide)
      (by decide) (by decide)
      ⟨⟨"https://signed.example/u", rfl, by decide⟩, rfl, rfl, rfl, rfl, rfl⟩
      ⟨⟨"https://signed.example/u", rfl, by decide⟩, rfl, rfl, rfl, rfl, rfl⟩).2.2.2
     (ArgVal.str "beats") (ArgVal.str "other.mp3") (by decide)⟩

/-- Claim C9: on a run in which every pipeline stage succeeds but the
scratch removal throws, the failure is swallowed — the handler still
responds 200 carrying the publication result, and the CLI still prints
the public URL and exits 0; only the workspace removal is lost. -/
theorem claim_C9 (cfg : HandlerConfig) (body : ReqBody) (w : World)
    (argv : List String) (env : CliEnv) (bv : ArgVal) (sps : String)
    (hc1 : truthy cfg.supabaseUrl = true) (hc2 : truthy cfg.serviceRoleKey = true)
    (hb1 : truthy body.sourceBucket = true) (hb2 : truthy body.sourcePath = true)
    (he1 : truthy env.supabaseUrl = true) (he2 : truthy env.serviceRoleKey = true)
    (hbv : getArg (parseArgs argv) "bucket" = some bv) (htb : truthyA bv = true)
    (hp : getArg (parseArgs argv) "path" = some (ArgVal.str sps)) (hts : sps ≠ "")
    (hpr : w.probeSpawnError = false) (hw : pipelineOk w) :
    (handler cfg ⟨"POST", some body⟩ { w with rmThrows := true }).status = 200 ∧
    (handler cfg ⟨"POST", some body⟩ { w with rmThrows := true }).pub =
      some ⟨handlerDestBucket body, handlerDestKey body w.now⟩ ∧
    (handler cfg ⟨"POST", some body⟩ { w with rmThrows := true }).scratchRemoved = false ∧
    (main argv env { w with rmThrows := true }).exitCode = 0 ∧
    (main argv env { w with rmThrows := true }).printedUrl =
      some ⟨cliDestBucket argv, cliDestKey argv w.now⟩ ∧
    (main argv env { w with rmThrows := true }).scratchRemoved = false := by
  obtain ⟨⟨u, hs, hu⟩, hf, hbr, hfe, hfs, hup⟩ := hw
  have hh := handler_success_spec cfg body { w with rmThrows := true } u hc1 hc2 hb1 hb2
    (by simp [hpr]) (by simp [hs]) hu (by simp [hf]) (by simp [hbr]) (by simp [hfe])
    (by simp [hfs]) (by simp [hup])
  have hm := main_success_spec argv env { w with rmThrows := true } bv sps u hbv htb hp hts
    he1 he2 (by simp [hpr]) (by simp [hs]) hu (by simp [hf]) (by simp [hbr])
    (by simp [hfe]) (by simp [hfs]) (by simp [hup])
  refine ⟨?_, ?_, ?_, ?_, ?_, ?_⟩ <;> simp [hh, hm]

/-- Witness for claim C9 at a concrete run whose removal throws. -/
theorem claim_C9_witness :
    (handler cfg0 ⟨"POST", some body0⟩ { wOk with rmThrows := true }).status = 200 ∧
    (handler cfg0 ⟨"POST", some body0⟩ { wOk with rmThrows := true }).pub =
      some ⟨handlerDestBucket body0, handlerDestKey body0 wOk.now⟩ ∧
    (handler cfg0 ⟨"POST", some body0⟩ { wOk with rmThrows := true }).scratchRemoved = false ∧
    (main argv0 env0 { wOk with rmThrows := true }).exitCode = 0 ∧
    (main argv0 env0 { wOk with rmThrows := true }).printedUrl =
      some ⟨cliDestBucket argv0, cliDestKey argv0 wOk.now⟩ ∧
    (main argv0 env0 { wOk with rmThrows := true }).scratchRemoved = false :=
  claim_C9 cfg0 body0 wOk argv0 env0 (ArgVal.str "beats") "mp3/track1.wav"
    (by decide) (by decide) (by decide) (by decide) (by decide) (by decide)
    (by decide) (by decide) (by decide) (by decide) (by decide)
    ⟨⟨"https://signed.example/u", rfl, by decide⟩, rfl, rfl, rfl, rfl, rfl⟩

/-- Claim C10: in the CLI flag parser a flag immediately followed by
another flag, or given last, receives the literal `true`; such a value is
truthy, so `--bucket` followed by `--path p.mp3` passes the required-flag
check and the pipeline proceeds — the signed-URL request is issued with
the bucket field equal to `true`, and the exit code is not the usage
error 2. -/
theorem claim_C10 :
    getArg (parseArgs ["--bucket", "--path", "p.mp3"]) "bucket" = some ArgVal.tru ∧
    getArg (parseArgs ["--bucket"]) "bucket" = some ArgVal.tru ∧
    truthyV (getArg (parseArgs ["--bucket", "--path", "p.mp3"]) "bucket") = true ∧
    (main ["--bucket", "--path", "p.mp3"] env0 wOk).exitCode ≠ 2 ∧
    Event.signRequest ArgVal.tru (ArgVal.str "p.mp3") ∈
      (main ["--bucket", "--path", "p.mp3"] env0 wOk).trace := by
  refine ⟨by decide, by decide, by decide, by decide, by decide⟩

end PreviewPipeline
